import Mathlib

/-!
Verification development for the Album-Maker bot (`album_bot_auto.py`,
`config.py`): a per-user media queue with threshold/inactivity dispatch.

Shallow embedding notes.
* A queued item (`{"type": ..., "file_id": ..., "caption": ...}`) is `Item`;
  the `type` field is a `String` exactly as in the source dicts.
* The global registries `pending : user_id -> list` and `timers` are a
  `BotState`; `pending` maps to `none` when no `defaultdict` entry exists, `timers u = true` means a live (armed, not yet fired or cancelled)
  timer exists for `u`.
* Outbound platform calls are recorded in an effect log (`SendCall`).
  Each platform send may fail; the oracle booleans `sendOk` / `notifyOk`
  say whether the media send resp. the diagnostic notification succeeds.
  Python exceptions inside the `try` block of `send_album_for_user` are the
  `Except` error channel of `sendBatch`; the surrounding handler catches
  them, which is why `send_album_for_user` itself is a total function into
  plain pairs (no error channel escapes the dispatcher).
* Config parsing (`config.py`): `int(...)` / `float(...)` raising
  `ValueError` is modelled by an `Option` argument (`none` = the string did
  not parse); the float delay is carried as a rational, which is exact for
  everything these claims mention.
-/

/-- A queued media item, as built by `collect_media`:
`{"type": typ, "file_id": file_id, "caption": caption}`. -/
structure Item where
  type : String
  file_id : String
  caption : Option String
deriving DecidableEq, Repr

/-- The two `pyrogram` input-media wrappers used by `_make_input_media`:
`InputMediaPhoto(media=..., caption=...)` and `InputMediaVideo(...)`. -/
inductive InputMedia where
  | photo (media : String) (caption : Option String)
  | video (media : String) (caption : Option String)
deriving DecidableEq, Repr

/-- The media reference (`media=` argument) of an input-media wrapper. -/
def InputMedia.ref : InputMedia → String
  | .photo m _ => m
  | .video m _ => m

/-- The caption argument of an input-media wrapper. -/
def InputMedia.cap : InputMedia → Option String
  | .photo _ c => c
  | .video _ c => c

/-- Whether an input-media wrapper is the video variant. -/
def InputMedia.isVideo : InputMedia → Bool
  | .photo _ _ => false
  | .video _ _ => true

/-- One outbound platform call made by the bot (the effect log). -/
inductive SendCall where
  | sendPhoto (chat : Nat) (file_id : String) (caption : Option String)
  | sendVideo (chat : Nat) (file_id : String) (caption : Option String)
  | sendMediaGroup (chat : Nat) (media : List InputMedia)
  | sendMessage (chat : Nat) (text : String)
  | replyText (text : String)
deriving DecidableEq, Repr

/-- `_make_input_media(item, with_caption)`: picks the wrapper by the `type`
string of the item; `none` is the `ValueError` raised on any other type. -/
def _make_input_media (item : Item) (with_caption : Bool) : Option InputMedia :=
  let caption := if with_caption then item.caption else none
  if item.type = ("photo") then some (InputMedia.photo item.file_id caption)
  else if item.type = ("video") then some (InputMedia.video item.file_id caption)
  else none

/-- The album-building loop of `send_album_for_user` scenario B:
`for i, item in enumerate(to_send): media.append(_make_input_media(item, with_caption=(i == 0)))`.
`i` is the running `enumerate` index; `none` means the loop raised. -/
def build_group_media : Nat → List Item → Option (List InputMedia)
  | _, [] => some []
  | i, item :: rest =>
    match _make_input_media item (i == 0), build_group_media (i + 1) rest with
    | some m, some ms => some (m :: ms)
    | _, _ => none

/-- Global mutable state of the bot module: the `pending` registry
(`user_id -> list of items`; `none` = no dict entry) and the liveness of the
per-user inactivity timer (`timers`). -/
structure BotState where
  pending : Nat → Option (List Item)
  timers : Nat → Bool

/-- `pending[user_id].append(item)` on the `defaultdict`: creates the entry
on first use and appends at the back. -/
def enqueue (st : BotState) (u : Nat) (it : Item) : BotState :=
  { st with pending := fun v => if v = u then some (((st.pending u).getD []) ++ [it]) else st.pending v }

/-- `_cancel_timer(user_id)`: after it, no live timer exists for the user. -/
def cancel_timer (st : BotState) (u : Nat) : BotState :=
  { st with timers := fun v => if v = u then false else st.timers v }

/-- The arming effect of `_start_timer(client, user_id, chat_id)`: cancels
any previous timer and leaves exactly one live timer for the user. -/
def start_timer (st : BotState) (u : Nat) : BotState :=
  { st with timers := fun v => if v = u then true else st.timers v }

/-- The `try:` block of `send_album_for_user` (lines 91-113): scenario A
(single item, kind-specific send with its caption) or scenario B (grouped
send). `.error` is a raised exception: a failing platform call when
`sendOk = false`, or the `ValueError` from `_make_input_media`. A single
item whose type string is neither photo nor video sends nothing and raises
nothing (neither `if` branch fires). -/
def sendBatch (to_send : List Item) (chat : Nat) (sendOk : Bool) : Except String (List SendCall) :=
  match to_send with
  | [item] =>
    if item.type = ("photo") then
      if sendOk then Except.ok [SendCall.sendPhoto chat item.file_id item.caption]
      else Except.error ("send failed")
    else if item.type = ("video") then
      if sendOk then Except.ok [SendCall.sendVideo chat item.file_id item.caption]
      else Except.error ("send failed")
    else Except.ok []
  | _ =>
    match build_group_media 0 to_send with
    | none => Except.error ("Unsupported media type")
    | some media =>
      if sendOk then Except.ok [SendCall.sendMediaGroup chat media]
      else Except.error ("send failed")

/-- `send_album_for_user(client, user_id, chat_id)`: takes the first 10
pending items, sends them (single or grouped), catches any send exception
and best-effort notifies the user, then unconditionally commits the queue
trim: overflow is kept and the timer restarted, otherwise the registry
entry is popped and the timer cancelled. -/
def send_album_for_user (st : BotState) (u chat : Nat) (sendOk notifyOk : Bool) : BotState × List SendCall :=
  let items := (st.pending u).getD []
  if items = [] then (st, [])
  else
    let to_send := items.take 10
    let remaining := items.drop 10
    let calls :=
      match sendBatch to_send chat sendOk with
      | Except.ok cs => cs
      | Except.error e =>
        if notifyOk then [SendCall.sendMessage chat ("Failed to send media: `" ++ e ++ "`")] else []
    if remaining = [] then
      ({ pending := fun v => if v = u then none else st.pending v,
         timers := fun v => if v = u then false else st.timers v }, calls)
    else
      ({ pending := fun v => if v = u then some remaining else st.pending v,
         timers := fun v => if v = u then true else st.timers v }, calls)

/-- The body of `_wait_and_send` after the sleep (lines 62-64): the fired
timer dispatches only if `pending.get(user_id)` is truthy, i.e. the entry
exists and is non-empty. -/
def timer_fire (st : BotState) (u chat : Nat) (sendOk notifyOk : Bool) : BotState × List SendCall :=
  match st.pending u with
  | some (_ :: _) => send_album_for_user st u chat sendOk notifyOk
  | _ => (st, [])

/-- An inbound private message, restricted to the fields `collect_media`
reads: each media slot carries its `file_id` when present, a document also
carries its optional `mime_type`. -/
structure Msg where
  photo : Option String
  video : Option String
  animation : Option String
  document : Option (String × Option String)
  caption : Option String
deriving DecidableEq, Repr

/-- Result of the media-type detection (lines 142-162 of the handler). -/
inductive ClassifyResult where
  | item (typ : String) (file_id : String)
  | unsupported
  | ignored
deriving DecidableEq, Repr

/-- Python `str.startswith(p)`: a computable prefix test on the
character sequences of the two strings. -/
def startswith (s p : String) : Bool := p.data.isPrefixOf s.data

/-- Lines 142-162 of `collect_media`: the `if message.photo / video /
animation / document` cascade, documents dispatched on their MIME prefix. -/
def classify (m : Msg) : ClassifyResult :=
  match m.photo with
  | some fid => ClassifyResult.item ("photo") fid
  | none =>
    match m.video with
    | some fid => ClassifyResult.item ("video") fid
    | none =>
      match m.animation with
      | some fid => ClassifyResult.item ("video") fid
      | none =>
        match m.document with
        | some (fid, mime?) =>
          let mime := mime?.getD ("")
          if startswith mime ("image/") then ClassifyResult.item ("photo") fid
          else if startswith mime ("video/") then ClassifyResult.item ("video") fid
          else ClassifyResult.unsupported
        | none => ClassifyResult.ignored

/-- Python `message.caption or None`: an empty string is falsy and
collapses to `None`. -/
def captionOrNone (s : Option String) : Option String :=
  match s with
  | some t => if t = "" then none else some t
  | none => none

/-- The reply sent for an unsupported document subtype. -/
def unsupportedReply : String := "Unsupported document type. Please send images or videos."

/-- The one-time acknowledgment text sent on the first queued item
(f-string of lines 180-182, with the configured delay interpolated). -/
def ackText (delay : ℚ) : String :=
  "**Album started!**\nSend more photos/videos to group them.\nAuto-sending after " ++ toString delay ++ "s of silence."

/-- `collect_media(client, message)`: classify, enqueue, then either
dispatch immediately (total reached the threshold; timer cancelled first)
or (re)start the inactivity timer, acknowledging only the first item.
`thr` and `delay` are the configured `AUTO_SEND_THRESHOLD` and
`AUTO_SEND_DELAY`. -/
def collect_media (thr : Int) (delay : ℚ) (st : BotState) (u chat : Nat) (m : Msg) (sendOk notifyOk : Bool) : BotState × List SendCall :=
  match classify m with
  | ClassifyResult.unsupported => (st, [SendCall.replyText unsupportedReply])
  | ClassifyResult.ignored => (st, [])
  | ClassifyResult.item typ fid =>
    let item : Item := { type := typ, file_id := fid, caption := captionOrNone m.caption }
    let st1 := enqueue st u item
    let total := ((st1.pending u).getD []).length
    if thr ≤ (total : Int) then
      send_album_for_user (cancel_timer st1 u) u chat sendOk notifyOk
    else
      (start_timer st1 u, if total = 1 then [SendCall.replyText (ackText delay)] else [])

/-- The `/cancel` handler `cancel_queue`: membership test on `pending`,
pop plus timer cancel when present, otherwise only a reply. -/
def cancel_queue (st : BotState) (u : Nat) : BotState × List SendCall :=
  match st.pending u with
  | some _ =>
    ({ pending := fun v => if v = u then none else st.pending v,
       timers := fun v => if v = u then false else st.timers v },
     [SendCall.replyText ("Album queue cleared.")])
  | none => (st, [SendCall.replyText ("Queue is already empty.")])

/-- The `/status` handler: replies with `len(pending.get(user_id, []))`,
mutating nothing. -/
def status (st : BotState) (u : Nat) : BotState × List SendCall :=
  (st, [SendCall.replyText ("Current queue: **" ++ toString ((st.pending u).getD []).length ++ "** items.")])

/-- `config.py` line 14: `BOT_TOKEN = os.environ.get("BOT_TOKEN", "6556dtg")`;
the argument is the environment lookup (`none` = variable unset). -/
def BOT_TOKEN (env : Option String) : String := env.getD ("6556dtg")

/-- The `__main__` guard (lines 230-232): the process exits iff the token
equals the placeholder or is falsy (empty). -/
def startup_exits (env : Option String) : Bool :=
  BOT_TOKEN env = ("YOUR-BOT-TOKEN-HERE") || BOT_TOKEN env = ("")

/-- `config.py` lines 19-24: the threshold is `int(...)` of the env string
with default `"10"`; a `ValueError` (`parsed = none`) falls back to 10, a
parsed value above 10 is clamped to the Telegram hard limit. -/
def AUTO_SEND_THRESHOLD (parsed : Option Int) : Int :=
  match parsed with
  | none => 10
  | some v => if v > 10 then 10 else v

/-- `config.py` lines 27-30: the delay is `float(...)` of the env string
with default `"3"`; a `ValueError` (`parsed = none`) falls back to 3.0.
The float is carried exactly as a rational. -/
def AUTO_SEND_DELAY (parsed : Option ℚ) : ℚ :=
  match parsed with
  | none => 3
  | some v => v

/-- Every item the classifier can enqueue has type string photo or video. -/
abbrev wellTypedItem (it : Item) : Prop := it.type = "photo" ∨ it.type = "video"

/-- All items of a list are classifier-produced kinds. -/
abbrev wellTyped (l : List Item) : Prop := ∀ it ∈ l, wellTypedItem it

/-- Registry invariant: an existing `pending` entry is never empty. -/
def RegistryInv (st : BotState) : Prop := ∀ u l, st.pending u = some l → l ≠ []

/-- The input-media wrapper `_make_input_media` produces for a well-typed
item (statement-side companion used to phrase the grouped-send claims). -/
def mediaOf (wc : Bool) (it : Item) : InputMedia :=
  if it.type = "photo" then InputMedia.photo it.file_id (if wc then it.caption else none)
  else InputMedia.video it.file_id (if wc then it.caption else none)

/-- Statement-side description of the grouped-media list: caption kept only
at running index 0. -/
def groupMediaSpec : Nat → List Item → List InputMedia
  | _, [] => []
  | i, it :: rest => mediaOf (i == 0) it :: groupMediaSpec (i + 1) rest

/-- Concrete three-item queue used to instantiate the dispatch theorems. -/
def itemsW3 : List Item :=
  [⟨"photo", "f1", some ("c1")⟩, ⟨"video", "f2", some ("c2")⟩, ⟨"photo", "f3", none⟩]

/-- Concrete state: user 7 has the three-item queue, no timer. -/
def stW3 : BotState :=
  { pending := fun v => if v = 7 then some itemsW3 else none, timers := fun _ => false }

/-- Concrete twelve-item queue used to instantiate the overflow theorems. -/
def itemsW12 : List Item := List.replicate 12 ⟨"photo", "g", none⟩

/-- Concrete state: user 7 has the twelve-item queue, no timer. -/
def stW12 : BotState :=
  { pending := fun v => if v = 7 then some itemsW12 else none, timers := fun _ => false }

/-- Concrete state with no entries at all. -/
def stEmpty : BotState := { pending := fun _ => none, timers := fun _ => false }

/-- Concrete inbound photo message with a caption. -/
def msgPhoto : Msg := { photo := some ("p1"), video := none, animation := none, document := none, caption := some ("hello") }

/-- Concrete inbound animation message. -/
def msgAnim : Msg := { photo := none, video := none, animation := some ("a1"), document := none, caption := none }

/-- Concrete inbound document message with an unsupported MIME type. -/
def msgBadDoc : Msg :=
  { photo := none, video := none, animation := none, document := some ("d1", some ("application/pdf")), caption := none }

/-- Length of the statement-side grouped-media list. -/
theorem groupMediaSpec_length (l : List Item) : ∀ i, (groupMediaSpec i l).length = l.length := by
  induction l with
  | nil => intro i; rfl
  | cons it rest ih => intro i; simp [groupMediaSpec, ih]

/-- Entries of the statement-side grouped-media list. -/
theorem groupMediaSpec_get (l : List Item) : ∀ i j (hj : j < l.length) (hj2 : j < (groupMediaSpec i l).length),
    (groupMediaSpec i l).get ⟨j, hj2⟩ = mediaOf ((i + j) == 0) (l.get ⟨j, hj⟩) := by
  induction l with
  | nil => intro i j hj hj2; exact absurd hj (Nat.not_lt_zero j)
  | cons it rest ih =>
    intro i j hj hj2
    cases j with
    | zero => simp [groupMediaSpec, List.get]
    | succ k =>
      have hk : k < rest.length := Nat.lt_of_succ_lt_succ hj
      have hk2 : k < (groupMediaSpec (i + 1) rest).length := by
        rw [groupMediaSpec_length]; exact hk
      have : (groupMediaSpec i (it :: rest)).get ⟨k + 1, hj2⟩ =
          (groupMediaSpec (i + 1) rest).get ⟨k, hk2⟩ := rfl
      rw [this, ih (i + 1) k hk hk2]
      have harith : i + 1 + k = i + (k + 1) := by omega
      rw [harith]
      rfl

/-- On a well-typed list the album-building loop never raises and produces
exactly the statement-side grouped-media list. -/
theorem build_group_media_eq (l : List Item) : ∀ i, wellTyped l →
    build_group_media i l = some (groupMediaSpec i l) := by
  induction l with
  | nil => intro i _; rfl
  | cons it rest ih =>
    intro i hwt
    have hit : wellTypedItem it := hwt it (List.mem_cons_self it rest)
    have hrest : wellTyped rest := fun x hx => hwt x (List.mem_cons_of_mem it hx)
    have hmk : _make_input_media it (i == 0) = some (mediaOf (i == 0) it) := by
      rcases hit with h | h <;> simp [_make_input_media, mediaOf, h]
    simp [build_group_media, hmk, ih (i + 1) hrest, groupMediaSpec]

/-- The try-block on a well-typed batch of two or more items is one grouped
send. -/
theorem sendBatch_group (to_send : List Item) (chat : Nat) (sOk : Bool)
    (h2 : 2 ≤ to_send.length) (hwt : wellTyped to_send) :
    sendBatch to_send chat sOk =
      (if sOk then Except.ok [SendCall.sendMediaGroup chat (groupMediaSpec 0 to_send)]
       else Except.error ("send failed")) := by
  cases to_send with
  | nil => simp at h2
  | cons a t =>
    cases t with
    | nil => simp at h2
    | cons b rest =>
      rw [show sendBatch (a :: b :: rest) chat sOk =
        (match build_group_media 0 (a :: b :: rest) with
         | none => Except.error ("Unsupported media type")
         | some media =>
           if sOk then Except.ok [SendCall.sendMediaGroup chat media]
           else Except.error ("send failed")) from rfl]
      rw [build_group_media_eq _ 0 hwt]

/-- The try-block on a single well-typed item is one kind-specific send. -/
theorem sendBatch_single (it : Item) (chat : Nat) (sOk : Bool) (hwt : wellTypedItem it) :
    sendBatch [it] chat sOk =
      (if sOk then
        Except.ok [if it.type = "photo" then SendCall.sendPhoto chat it.file_id it.caption
                   else SendCall.sendVideo chat it.file_id it.caption]
       else Except.error ("send failed")) := by
  rcases hwt with h | h <;> simp [sendBatch, h]

/-- The effect log of a dispatch on a non-empty queue is exactly what the
try-block produced, or the best-effort diagnostic on an exception. -/
theorem send_album_calls (st : BotState) (u chat : Nat) (sOk nOk : Bool)
    (items : List Item) (hp : st.pending u = some items) (hne : items ≠ []) :
    (send_album_for_user st u chat sOk nOk).2 =
      (match sendBatch (items.take 10) chat sOk with
       | Except.ok cs => cs
       | Except.error e =>
         if nOk then [SendCall.sendMessage chat ("Failed to send media: `" ++ e ++ "`")] else []) := by
  simp only [send_album_for_user, hp, Option.getD_some, hne, if_false, ite_false]
  by_cases h2 : items.drop 10 = [] <;> simp [h2]

/-- Claim C1: a dispatch on a non-empty queue takes exactly the first
min(10, len) items; a 1-item batch goes through the kind-specific single
send carrying its caption; a batch of 2 or more items goes out as one
grouped call whose entries keep the media references of the items, with the
caption only on index 0, and never more than 10 entries. -/
theorem c1_dispatch_batch_policy (st : BotState) (u chat : Nat) (nOk : Bool)
    (items : List Item) (hp : st.pending u = some items) (hne : items ≠ [])
    (hwt : wellTyped items) :
    (items.take 10).length = min 10 items.length ∧
    (∀ it, items = [it] →
      (send_album_for_user st u chat true nOk).2 =
        [if it.type = "photo" then SendCall.sendPhoto chat it.file_id it.caption
         else SendCall.sendVideo chat it.file_id it.caption]) ∧
    (2 ≤ (items.take 10).length →
      (send_album_for_user st u chat true nOk).2 =
        [SendCall.sendMediaGroup chat (groupMediaSpec 0 (items.take 10))] ∧
      (groupMediaSpec 0 (items.take 10)).length = (items.take 10).length ∧
      (groupMediaSpec 0 (items.take 10)).length ≤ 10 ∧
      (∀ j (hj : j < (items.take 10).length) (hj2 : j < (groupMediaSpec 0 (items.take 10)).length),
        ((groupMediaSpec 0 (items.take 10)).get ⟨j, hj2⟩).ref = ((items.take 10).get ⟨j, hj⟩).file_id ∧
        ((groupMediaSpec 0 (items.take 10)).get ⟨j, hj2⟩).cap =
          (if j = 0 then ((items.take 10).get ⟨j, hj⟩).caption else none))) := by
  refine ⟨List.length_take 10 items, ?_, ?_⟩
  · intro it hit
    subst hit
    rw [send_album_calls st u chat true nOk [it] hp hne]
    have hwit : wellTypedItem it := hwt it (List.mem_singleton_self it)
    simp [sendBatch_single it chat true hwit]
  · intro h2
    have hwt10 : wellTyped (items.take 10) := fun x hx => hwt x (List.take_subset 10 items hx)
    rw [send_album_calls st u chat true nOk items hp hne]
    rw [sendBatch_group (items.take 10) chat true h2 hwt10]
    refine ⟨rfl, groupMediaSpec_length (items.take 10) 0, ?_, ?_⟩
    · rw [groupMediaSpec_length, List.length_take]
      exact Nat.min_le_left 10 items.length
    · intro j hj hj2
      rw [groupMediaSpec_get (items.take 10) 0 j hj hj2]
      generalize (items.take 10).get ⟨j, hj⟩ = x
      by_cases ht : x.type = "photo" <;>
        by_cases hz : j = 0 <;>
          simp [mediaOf, ht, hz, InputMedia.ref, InputMedia.cap]

/-- The post-dispatch state on a non-empty queue: drained entries are
popped with their timer cancelled, overflow is kept with the timer
restarted. -/
theorem send_album_state (st : BotState) (u chat : Nat) (sOk nOk : Bool)
    (items : List Item) (hp : st.pending u = some items) (hne : items ≠ []) :
    (send_album_for_user st u chat sOk nOk).1 =
      (if items.drop 10 = [] then
        { pending := fun v => if v = u then none else st.pending v,
          timers := fun v => if v = u then false else st.timers v }
       else
        ({ pending := fun v => if v = u then some (items.drop 10) else st.pending v,
           timers := fun v => if v = u then true else st.timers v } : BotState)) := by
  simp only [send_album_for_user, hp, Option.getD_some, hne, if_false, ite_false]
  by_cases h2 : items.drop 10 = [] <;> simp [h2]

/-- The post-dispatch state does not depend on the outcome of the platform
calls. -/
theorem send_album_state_indep (st : BotState) (u chat : Nat) (s1 s2 n1 n2 : Bool) :
    (send_album_for_user st u chat s1 n1).1 = (send_album_for_user st u chat s2 n2).1 := by
  by_cases h : (st.pending u).getD [] = []
  · simp [send_album_for_user, h]
  · simp only [send_album_for_user, h, if_false, ite_false]
    by_cases h2 : ((st.pending u).getD []).drop 10 = [] <;> simp [h2]

/-- Claim C2: with more than 10 pending items a dispatch sends exactly the
first 10, keeps the remaining len-10 items under the user in their
original order, and re-arms the timer; with no overflow the registry entry
is deleted and the timer cancelled. -/
theorem c2_overflow_and_drain (st : BotState) (u chat : Nat) (sOk nOk : Bool)
    (items : List Item) (hp : st.pending u = some items) (hwt : wellTyped items) :
    (10 < items.length →
      (send_album_for_user st u chat sOk nOk).1.pending u = some (items.drop 10) ∧
      (send_album_for_user st u chat sOk nOk).1.timers u = true ∧
      (items.take 10).length = 10 ∧
      (sOk = true →
        (send_album_for_user st u chat sOk nOk).2 =
          [SendCall.sendMediaGroup chat (groupMediaSpec 0 (items.take 10))])) ∧
    (items ≠ [] → items.length ≤ 10 →
      (send_album_for_user st u chat sOk nOk).1.pending u = none ∧
      (send_album_for_user st u chat sOk nOk).1.timers u = false) := by
  constructor
  · intro hlen
    have hne : items ≠ [] := by
      intro h; subst h; simp at hlen
    have hdrop : items.drop 10 ≠ [] := by
      intro h
      have hlzero : (items.drop 10).length = 0 := by rw [h]; rfl
      rw [List.length_drop] at hlzero
      omega
    have htake : (items.take 10).length = 10 := by
      rw [List.length_take]
      omega
    refine ⟨?_, ?_, htake, ?_⟩
    · rw [send_album_state st u chat sOk nOk items hp hne, if_neg hdrop]
      simp
    · rw [send_album_state st u chat sOk nOk items hp hne, if_neg hdrop]
      simp
    · intro hs
      subst hs
      rw [send_album_calls st u chat true nOk items hp hne]
      have hwt10 : wellTyped (items.take 10) := fun x hx => hwt x (List.take_subset 10 items hx)
      rw [sendBatch_group (items.take 10) chat true (by omega) hwt10]
      rfl
  · intro hne hle
    have hdrop : items.drop 10 = [] := List.drop_eq_nil_of_le hle
    rw [send_album_state st u chat sOk nOk items hp hne, if_pos hdrop]
    simp

/-- Claim C5: a dispatch on an empty (absent or drained) queue, whether
invoked directly or by a firing timer, sends nothing, returns normally and
leaves the whole state unchanged. -/
theorem c5_empty_queue_noop (st : BotState) (u chat : Nat) (sOk nOk : Bool)
    (h : st.pending u = none ∨ st.pending u = some []) :
    send_album_for_user st u chat sOk nOk = (st, []) ∧
    timer_fire st u chat sOk nOk = (st, []) := by
  rcases h with h | h <;>
    exact ⟨by simp [send_album_for_user, h], by simp [timer_fire, h]⟩

/-- The try-block on a well-typed non-empty batch with a failing platform
send always raises the send failure. -/
theorem sendBatch_fail (items : List Item) (chat : Nat)
    (hne : items ≠ []) (hwt : wellTyped items) :
    sendBatch (items.take 10) chat false = Except.error ("send failed") := by
  have hwt10 : wellTyped (items.take 10) := fun x hx => hwt x (List.take_subset 10 items hx)
  cases hT : items.take 10 with
  | nil =>
    rw [List.take_eq_nil_iff] at hT
    rcases hT with h | h
    · exact absurd h (by decide)
    · exact absurd h hne
  | cons a t =>
    cases t with
    | nil =>
      have ha : wellTypedItem a := by
        refine hwt10 a ?_
        rw [hT]
        exact List.mem_singleton_self a
      rw [sendBatch_single a chat false ha]
      rfl
    | cons b rest =>
      rw [hT] at hwt10
      have h2 : 2 ≤ (a :: b :: rest).length := by simp
      rw [sendBatch_group (a :: b :: rest) chat false h2 hwt10]
      rfl

/-- Claim C3: when the platform send fails, the dispatcher still returns
normally with the same post-state as a successful send (lock released,
trim committed, nothing re-queued), and its only output is the best-effort
diagnostic text, dropped silently if that notification itself fails. -/
theorem c3_send_failure_boundary (st : BotState) (u chat : Nat) (nOk : Bool)
    (items : List Item) (hp : st.pending u = some items) (hne : items ≠ [])
    (hwt : wellTyped items) :
    (send_album_for_user st u chat false nOk).1 = (send_album_for_user st u chat true nOk).1 ∧
    (send_album_for_user st u chat false nOk).2 =
      (if nOk then [SendCall.sendMessage chat ("Failed to send media: `send failed`")] else []) ∧
    (send_album_for_user st u chat false nOk).1.pending u =
      (if items.drop 10 = [] then none else some (items.drop 10)) := by
  refine ⟨send_album_state_indep st u chat false true nOk nOk, ?_, ?_⟩
  · rw [send_album_calls st u chat false nOk items hp hne]
    rw [sendBatch_fail items chat hne hwt]
    cases nOk <;> simp
  · rw [send_album_state st u chat false nOk items hp hne]
    by_cases h2 : items.drop 10 = [] <;> simp [h2]

/-- Concrete run of the C1 theorem: the three-item queue of user 7 goes
out as one grouped send with the caption only on the first entry. -/
theorem c1_dispatch_batch_policy_witness :
    (send_album_for_user stW3 7 5 true true).2 =
      [SendCall.sendMediaGroup 5 (groupMediaSpec 0 (itemsW3.take 10))] :=
  ((c1_dispatch_batch_policy stW3 7 5 true itemsW3 rfl (by decide) (by decide)).2.2
      (by decide)).1

/-- Concrete run of the C2 theorem: dispatching the twelve-item queue
leaves the last two items pending and the timer re-armed. -/
theorem c2_overflow_and_drain_witness :
    (send_album_for_user stW12 7 5 true true).1.pending 7 = some (itemsW12.drop 10) ∧
    (send_album_for_user stW12 7 5 true true).1.timers 7 = true :=
  let h := (c2_overflow_and_drain stW12 7 5 true true itemsW12 rfl (by decide)).1 (by decide)
  ⟨h.1, h.2.1⟩

/-- Concrete run of the C3 theorem: a failed send on the three-item queue
yields only the diagnostic message and still drains the queue. -/
theorem c3_send_failure_boundary_witness :
    (send_album_for_user stW3 7 5 false true).2 =
      [SendCall.sendMessage 5 ("Failed to send media: `send failed`")] ∧
    (send_album_for_user stW3 7 5 false true).1.pending 7 = none :=
  let h := c3_send_failure_boundary stW3 7 5 true itemsW3 rfl (by decide) (by decide)
  ⟨h.2.1, by rw [h.2.2]; rfl⟩

/-- Concrete run of the C5 theorem: a timer firing for user 3, who has no
entry at all, is a no-op. -/
theorem c5_empty_queue_noop_witness :
    send_album_for_user stEmpty 3 5 true true = (stEmpty, []) ∧
    timer_fire stEmpty 3 5 true true = (stEmpty, []) :=
  c5_empty_queue_noop stEmpty 3 5 true true (Or.inl rfl)

/-- Claim C6: enqueueing a classified media item either reaches the
threshold — timer cancelled, dispatcher invoked synchronously — or re-arms
the inactivity timer, acknowledging exactly when the new total is 1. -/
theorem c6_enqueue_threshold_policy (thr : Int) (delay : ℚ) (st : BotState) (u chat : Nat)
    (m : Msg) (sOk nOk : Bool) (typ fid : String) (it : Item) (old : List Item)
    (hc : classify m = ClassifyResult.item typ fid)
    (hit : it = { type := typ, file_id := fid, caption := captionOrNone m.caption })
    (hold : old = (st.pending u).getD []) :
    (thr ≤ ((old.length + 1 : Nat) : Int) →
      collect_media thr delay st u chat m sOk nOk =
        send_album_for_user (cancel_timer (enqueue st u it) u) u chat sOk nOk) ∧
    (((old.length + 1 : Nat) : Int) < thr →
      (collect_media thr delay st u chat m sOk nOk).1.timers u = true ∧
      (collect_media thr delay st u chat m sOk nOk).1.pending u = some (old ++ [it]) ∧
      (collect_media thr delay st u chat m sOk nOk).2 =
        (if old = [] then [SendCall.replyText (ackText delay)] else [])) := by
  have hq : ((enqueue st u it).pending u).getD [] = old ++ [it] := by
    simp [enqueue, hold]
  have hlen : (old ++ [it]).length = old.length + 1 := by simp
  constructor
  · intro h
    simp only [collect_media, hc, ← hit, hq, hlen]
    rw [if_pos h]
  · intro h
    have hnot : ¬ thr ≤ ((old.length + 1 : Nat) : Int) := not_le.mpr h
    simp only [collect_media, hc, ← hit, hq, hlen]
    rw [if_neg hnot]
    refine ⟨by simp [start_timer], by simp [start_timer, enqueue, hold], ?_⟩
    by_cases ho : old = []
    · subst ho; simp
    · have : old.length + 1 ≠ 1 := by
        intro hx
        exact ho (List.length_eq_zero.mp (by omega))
      simp [this, ho]

/-- Concrete run of the C6 theorem: the first photo for a fresh user arms
the timer and triggers the one-time acknowledgment. -/
theorem c6_enqueue_threshold_policy_witness :
    (collect_media 10 3 stEmpty 7 5 msgPhoto true true).1.timers 7 = true ∧
    (collect_media 10 3 stEmpty 7 5 msgPhoto true true).2 = [SendCall.replyText (ackText 3)] := by
  have h := (c6_enqueue_threshold_policy 10 3 stEmpty 7 5 msgPhoto true true ("photo") ("p1")
      { type := ("photo"), file_id := ("p1"), caption := some ("hello") } [] rfl (by decide) rfl).2
      (by decide)
  exact ⟨h.1, by rw [h.2.2]; rfl⟩

/-- Claim C7: photos, videos and animations classify directly; documents
classify by MIME prefix (image to photo, video to video, anything else
unsupported); an unsupported document only draws the explanatory reply and
leaves state, queue and timers untouched. -/
theorem c7_classifier_policy (m : Msg) (st : BotState) (u chat : Nat) (thr : Int)
    (delay : ℚ) (sOk nOk : Bool) (fid : String) (mime? : Option String) :
    (m.photo = some fid → classify m = ClassifyResult.item ("photo") fid) ∧
    (m.photo = none → m.video = some fid → classify m = ClassifyResult.item ("video") fid) ∧
    (m.photo = none → m.video = none → m.animation = some fid →
      classify m = ClassifyResult.item ("video") fid) ∧
    (m.photo = none → m.video = none → m.animation = none → m.document = some (fid, mime?) →
      (startswith (mime?.getD ("")) ("image/") = true →
        classify m = ClassifyResult.item ("photo") fid) ∧
      (startswith (mime?.getD ("")) ("image/") = false →
        startswith (mime?.getD ("")) ("video/") = true →
        classify m = ClassifyResult.item ("video") fid) ∧
      (startswith (mime?.getD ("")) ("image/") = false →
        startswith (mime?.getD ("")) ("video/") = false →
        classify m = ClassifyResult.unsupported)) ∧
    (classify m = ClassifyResult.unsupported →
      collect_media thr delay st u chat m sOk nOk = (st, [SendCall.replyText unsupportedReply])) := by
  refine ⟨?_, ?_, ?_, ?_, ?_⟩
  · intro h1
    simp [classify, h1]
  · intro h1 h2
    simp [classify, h1, h2]
  · intro h1 h2 h3
    simp [classify, h1, h2, h3]
  · intro h1 h2 h3 h4
    refine ⟨?_, ?_, ?_⟩ <;> intro hi <;> try intro hv
    · simp [classify, h1, h2, h3, h4, hi]
    · simp [classify, h1, h2, h3, h4, hi, hv]
    · simp [classify, h1, h2, h3, h4, hi, hv]
  · intro h
    simp [collect_media, h]

/-- Concrete run of the C7 theorem: a PDF document draws the explanatory
reply and mutates nothing. -/
theorem c7_classifier_policy_witness :
    classify msgBadDoc = ClassifyResult.unsupported ∧
    collect_media 10 3 stEmpty 7 5 msgBadDoc true true = (stEmpty, [SendCall.replyText unsupportedReply]) := by
  have h := c7_classifier_policy msgBadDoc stEmpty 7 5 10 3 true true ("d1") (some ("application/pdf"))
  have hu : classify msgBadDoc = ClassifyResult.unsupported :=
    ((h.2.2.2.1 rfl rfl rfl rfl).2.2 (by decide) (by decide))
  exact ⟨hu, h.2.2.2.2 hu⟩

/-- Claim C10: an animation is enqueued with the video kind, its input
media is built as a video entry, and a single-item dispatch of it goes
through the video send path — never the photo one. -/
theorem c10_animation_video_kind (m : Msg) (fid f : String) (cap : Option String)
    (chat : Nat) (h1 : m.photo = none) (h2 : m.video = none) (h3 : m.animation = some fid) :
    classify m = ClassifyResult.item ("video") fid ∧
    (∀ wc : Bool, _make_input_media { type := ("video"), file_id := f, caption := cap } wc =
      some (InputMedia.video f (if wc then cap else none))) ∧
    sendBatch [{ type := ("video"), file_id := f, caption := cap }] chat true =
      Except.ok [SendCall.sendVideo chat f cap] := by
  refine ⟨by simp [classify, h1, h2, h3], ?_, by simp [sendBatch]⟩
  intro wc
  cases wc <;> simp [_make_input_media]

/-- Concrete run of the C10 theorem on the animation message. -/
theorem c10_animation_video_kind_witness :
    classify msgAnim = ClassifyResult.item ("video") ("a1") ∧
    sendBatch [{ type := ("video"), file_id := ("a1"), caption := none }] 5 true =
      Except.ok [SendCall.sendVideo 5 ("a1") none] :=
  let h := c10_animation_video_kind msgAnim ("a1") ("a1") none 5 rfl rfl rfl
  ⟨h.1, h.2.2⟩

/-- Claim C4 (refuting evaluation): with BOT_TOKEN absent from the
environment, `config.py` substitutes the junk default, so the startup
guard of `__main__` does not exit and the bot proceeds to serve. -/
theorem c4_missing_token_no_exit :
    BOT_TOKEN none = ("6556dtg") ∧ startup_exits none = false := by
  exact ⟨rfl, by decide⟩

/-- Claim C8: config loading is total; the threshold defaults to 10 and is
clamped to 10 from above, the delay defaults to 3.0, and every parse
failure yields the respective default. -/
theorem c8_config_fallbacks (v : Int) (q : ℚ) :
    AUTO_SEND_THRESHOLD none = 10 ∧
    (10 < v → AUTO_SEND_THRESHOLD (some v) = 10) ∧
    (v ≤ 10 → AUTO_SEND_THRESHOLD (some v) = v) ∧
    AUTO_SEND_DELAY none = 3 ∧
    AUTO_SEND_DELAY (some q) = q := by
  refine ⟨rfl, ?_, ?_, rfl, rfl⟩
  · intro h
    simp [AUTO_SEND_THRESHOLD, h]
  · intro h
    simp [AUTO_SEND_THRESHOLD, not_lt.mpr h]

/-- Concrete run of the C8 theorem: an oversized threshold is clamped and
an unparsable delay falls back to 3.0. -/
theorem c8_config_fallbacks_witness :
    AUTO_SEND_THRESHOLD (some 42) = 10 ∧ AUTO_SEND_DELAY none = 3 :=
  ⟨(c8_config_fallbacks 42 0).2.1 (by decide), (c8_config_fallbacks 42 0).2.2.2.1⟩

/-- Enqueue preserves the never-empty-entry invariant and always yields a
non-empty entry for the enqueuing user. -/
theorem inv_enqueue (st : BotState) (u : Nat) (it : Item) (hinv : RegistryInv st) :
    RegistryInv (enqueue st u it) := by
  intro v l h
  by_cases hv : v = u
  · subst hv
    simp only [enqueue, if_pos rfl] at h
    injection h with h2
    subst h2
    simp
  · simp only [enqueue, if_neg hv] at h
    exact hinv v l h

/-- Dispatch preserves the never-empty-entry invariant. -/
theorem inv_send_album (st : BotState) (u chat : Nat) (sOk nOk : Bool)
    (hinv : RegistryInv st) : RegistryInv (send_album_for_user st u chat sOk nOk).1 := by
  cases hP : st.pending u with
  | none =>
    have hres : (send_album_for_user st u chat sOk nOk).1 = st := by
      simp [send_album_for_user, hP]
    rw [hres]
    exact hinv
  | some items =>
    by_cases hne : items = []
    · subst hne
      have hres : (send_album_for_user st u chat sOk nOk).1 = st := by
        simp [send_album_for_user, hP]
      rw [hres]
      exact hinv
    · rw [send_album_state st u chat sOk nOk items hP hne]
      by_cases hd : items.drop 10 = []
      · rw [if_pos hd]
        intro v l h
        by_cases hv : v = u
        · subst hv
          simp at h
        · simp only [if_neg hv] at h
          exact hinv v l h
      · rw [if_neg hd]
        intro v l h
        by_cases hv : v = u
        · subst hv
          simp only [if_pos rfl] at h
          injection h with h2
          subst h2
          exact hd
        · simp only [if_neg hv] at h
          exact hinv v l h

/-- The `/cancel` handler preserves the never-empty-entry invariant. -/
theorem inv_cancel_queue (st : BotState) (u : Nat) (hinv : RegistryInv st) :
    RegistryInv (cancel_queue st u).1 := by
  cases hP : st.pending u with
  | none =>
    have hres : (cancel_queue st u).1 = st := by simp [cancel_queue, hP]
    rw [hres]
    exact hinv
  | some l0 =>
    simp only [cancel_queue, hP]
    intro v l h
    by_cases hv : v = u
    · subst hv
      simp at h
    · simp only [if_neg hv] at h
      exact hinv v l h

/-- The media handler preserves the never-empty-entry invariant. -/
theorem inv_collect_media (thr : Int) (delay : ℚ) (st : BotState) (u chat : Nat)
    (m : Msg) (sOk nOk : Bool) (hinv : RegistryInv st) :
    RegistryInv (collect_media thr delay st u chat m sOk nOk).1 := by
  unfold collect_media
  cases classify m with
  | unsupported => exact hinv
  | ignored => exact hinv
  | item typ fid =>
    dsimp only
    split
    · exact inv_send_album _ u chat sOk nOk
        (inv_enqueue st u { type := typ, file_id := fid, caption := captionOrNone m.caption } hinv)
    · exact inv_enqueue st u { type := typ, file_id := fid, caption := captionOrNone m.caption } hinv

/-- Claim C9: every operation preserves the invariant that an entry exists
iff it holds at least one item: an enqueue creates a non-empty entry, dispatch and cancel
either leave a non-empty entry or delete it, cancel always removes the
entry of the user, and the read-only status handler changes nothing at all. -/
theorem c9_registry_invariant (st : BotState) (u chat : Nat) (it : Item) (m : Msg)
    (thr : Int) (delay : ℚ) (sOk nOk : Bool) (hinv : RegistryInv st) :
    RegistryInv (enqueue st u it) ∧
    (enqueue st u it).pending u ≠ none ∧
    RegistryInv (collect_media thr delay st u chat m sOk nOk).1 ∧
    RegistryInv (send_album_for_user st u chat sOk nOk).1 ∧
    RegistryInv (cancel_queue st u).1 ∧
    (cancel_queue st u).1.pending u = none ∧
    (status st u).1 = st := by
  refine ⟨inv_enqueue st u it hinv, ?_, inv_collect_media thr delay st u chat m sOk nOk hinv,
    inv_send_album st u chat sOk nOk hinv, inv_cancel_queue st u hinv, ?_, rfl⟩
  · simp [enqueue]
  · cases hP : st.pending u with
    | none => simp [cancel_queue, hP]
    | some l => simp [cancel_queue, hP]

/-- Concrete run of the C9 theorem starting from the empty registry. -/
theorem c9_registry_invariant_witness :
    RegistryInv (collect_media 10 3 stEmpty 7 5 msgPhoto true true).1 ∧
    (enqueue stEmpty 7 { type := ("photo"), file_id := ("p1"), caption := none }).pending 7 ≠ none ∧
    (status stEmpty 7).1 = stEmpty := by
  have hinv : RegistryInv stEmpty := by
    intro v l h
    simp [stEmpty] at h
  have h := c9_registry_invariant stEmpty 7 5
    { type := ("photo"), file_id := ("p1"), caption := none } msgPhoto 10 3 true true hinv
  exact ⟨h.2.2.1, h.2.1, h.2.2.2.2.2.2⟩
